import Mathlib

set_option maxRecDepth 20000

/-!
Shallow embedding of the SEROX AI backend prediction core
(files: utils.js, state.js, primary_model.js, advisory_models.js,
market_sentiment.js, main.js), over exact rational arithmetic.

Modelling conventions:
- JS numbers are modelled as rationals (ℚ); the game outcomes and every
  quantity the claims mention are produced by exact arithmetic in the
  source, so no rounding behaviour is relevant to the claims.
- JS null / undefined results are modelled as Option.none; a record field
  that may be absent is an Option field.  NaN values (which could only
  arise from a malformed upstream payload) are modelled as none as well.
- Math.sqrt is irrational over ℚ, so it is passed as an uninterpreted
  parameter (sqrtFn : ℚ → ℚ) to every function whose source calls it;
  all theorems quantify over the interpretation, hence they hold in
  particular for the real square root.  No claim depends on the value of
  a square root.
- Mutable module state (systemState, mlFeatureWeights, marketEvents) is
  threaded explicitly: each mutating function takes the state before the
  call and returns the state after it.
- Math.random() draws are supplied through a RandSrc record with one
  field per call site (each site draws at most once per cycle).
-/

/-- The feature object built by createFeatureSetForML (primary_model.js):
fixed shape, seven named numeric features. -/
structure FeatureVec where
  rsi_strength : ℚ
  rsi_is_overbought : ℚ
  rsi_is_oversold : ℚ
  macd_hist : ℚ
  trend_strength_score : ℚ
  bollinger_pct_reversal : ℚ
  last_move : ℚ
deriving DecidableEq

/-- The mlFeatureWeights object (state.js): eleven named scalar weights. -/
structure MLWeights where
  rsi_strength : ℚ
  rsi_is_overbought : ℚ
  rsi_is_oversold : ℚ
  macd_hist : ℚ
  trend_strength_score : ℚ
  bollinger_pct_reversal : ℚ
  last_move : ℚ
  volatility_expansion : ℚ
  market_sentiment : ℚ
  stochastic_k : ℚ
  rsi_trend_strength : ℚ
deriving DecidableEq

/-- The systemState object (state.js). -/
structure SystemState where
  MIN_HISTORY : ℕ
  BAD_TREND_THRESHOLD : ℚ
  TARGET_ACCURACY : ℚ
  EVOLUTION_RATE : ℚ
  DEFENSIVE_MODE_ACTIVE : Bool
deriving DecidableEq

/-- One entry of the in-memory history consumed by the core (index.js
creates them; main.js / state.js / the detectors read them).  Fields the
core never reads (period, resultType, timestamp) are omitted. -/
structure HistRecord where
  actual : Option ℚ := none
  actualNumber : Option ℚ := none
  status : Option String := none
  mlFeatures : Option FeatureVec := none
  lastPredictedOutcome : Option String := none
deriving DecidableEq

/-- The shared stats payload handed to ultraAIPredict (main.js mutates it
on a successful cycle). -/
structure SharedStats where
  lastActualOutcome : Option ℚ := none
  lastPredictedOutcome : Option String := none
  lastConfidenceLevel : Option ℕ := none
  longTermGlobalAccuracy : Option ℚ := none
  mlFeatures : Option FeatureVec := none
  status : Option String := none
deriving DecidableEq

/-- Injectable randomness: one Math.random() draw per call site reachable
in a single cycle (the fallback class choice in main.js and the two draws
in updateMarketSentiment). -/
structure RandSrc where
  fallbackDraw : ℚ
  eventDraw : ℚ
  signDraw : ℚ
deriving DecidableEq

/-- An advisory vote { prediction, source } (advisory_models.js); an
abstaining detector returns none instead. -/
structure AdvisorySignal where
  prediction : String
  source : String
deriving DecidableEq

/-- Result of the primary model analyzeUnifiedMLModel. -/
structure PrimaryResult where
  prediction : String
  confidence : ℚ
  source : String
deriving DecidableEq

/-- Result record of runAdvisoryModels. -/
structure AdvisoryResult where
  advisorySignals : List AdvisorySignal
  consensusScore : ℚ
  agreeingModels : ℕ
  totalAdvisors : ℕ
deriving DecidableEq

/-- Trend context returned by getTrendContext (primary_model.js). -/
structure TrendContext where
  strength : String
  direction : String
deriving DecidableEq

/-- The decision object returned by ultraAIPredict.  The two early-return
branches omit finalConfidence, overallLogic and advisorySignals, hence
those are Option fields. -/
structure Decision where
  finalDecision : String
  finalConfidence : Option ℚ
  confidenceLevel : ℕ
  overallLogic : Option String
  source : String
  systemHealth : String
  advisorySignals : Option (List AdvisorySignal)
deriving DecidableEq

/-- All process-lifetime mutable state of the core: systemState and
mlFeatureWeights (state.js) and the marketEvents impact list
(market_sentiment.js; only the impact field of an event influences
behaviour, so an event is modelled by its impact). -/
structure GlobalState where
  sys : SystemState
  weights : MLWeights
  events : List ℚ
deriving DecidableEq

/-- JS truncation toward zero, as performed by parseInt on a numeric
argument in getBigSmallFromNumber (utils.js). -/
def jsTrunc (q : ℚ) : ℤ :=
  if 0 ≤ q then ⌊q⌋ else ⌈q⌉

/-- getBigSmallFromNumber (utils.js): null/undefined and out-of-range
inputs map to null, 0..4 to SMALL, 5..9 to BIG. -/
def getBigSmallFromNumber (number : Option ℚ) : Option String :=
  match number with
  | none => none
  | some q =>
    let num := jsTrunc q
    if 0 ≤ num ∧ num ≤ 4 then some "SMALL"
    else if 5 ≤ num ∧ num ≤ 9 then some "BIG"
    else none

/-- calculateSMA (utils.js): mean of the first period elements of a
newest-first slice; null when fewer than period samples (or period 0). -/
def calculateSMA (data : List ℚ) (period : ℕ) : Option ℚ :=
  if data.length < period ∨ period = 0 then none
  else some ((data.take period).sum / (period : ℚ))

/-- calculateEMA (utils.js): seed with the SMA of the oldest period
samples, then apply the recurrence forward in time with k = 2/(period+1). -/
def calculateEMA (data : List ℚ) (period : ℕ) : Option ℚ :=
  if data.length < period ∨ period = 0 then none
  else
    let k : ℚ := 2 / ((period : ℚ) + 1)
    let chronologicalData := data.reverse
    match calculateSMA ((chronologicalData.take period).reverse) period with
    | none => none
    | some seed =>
      some ((chronologicalData.drop period).foldl
        (fun ema v => v * k + ema * (1 - k)) seed)

/-- The value under the square root in calculateStdDev (utils.js): the
Bessel-corrected sample variance of the first period elements. -/
def stdDevVariance (data : List ℚ) (period : ℕ) : Option ℚ :=
  if data.length < period ∨ period = 0 then none
  else
    let relevantData := data.take period
    if relevantData.length < 2 then none
    else
      match calculateSMA relevantData relevantData.length with
      | none => none
      | some mean =>
        some ((relevantData.foldl (fun acc val => acc + (val - mean) ^ 2) 0)
          / ((relevantData.length : ℚ) - 1))

/-- calculateStdDev (utils.js): Math.sqrt of the sample variance; the
square root is the uninterpreted parameter sqrtFn. -/
def calculateStdDev (sqrtFn : ℚ → ℚ) (data : List ℚ) (period : ℕ) : Option ℚ :=
  (stdDevVariance data period).map sqrtFn

/-- calculateRSI (utils.js), Wilder-style smoothing; 100 when the average
loss is exactly 0. -/
def calculateRSI (data : List ℚ) (period : ℕ) : Option ℚ :=
  if data.length < period + 1 then none
  else
    let chronologicalData := data.reverse
    let changes := (chronologicalData.zip chronologicalData.tail).map
      (fun p => p.2 - p.1)
    let initial := changes.take period
    let gains := (initial.map (fun c => if 0 < c then c else 0)).sum
    let losses := (initial.map (fun c => if 0 < c then 0 else |c|)).sum
    let avgGain := gains / (period : ℚ)
    let avgLoss := losses / (period : ℚ)
    let rest := changes.drop period
    let smoothed := rest.foldl
      (fun acc change =>
        (((acc.1 * ((period : ℚ) - 1)) + (if 0 < change then change else 0)) / (period : ℚ),
         ((acc.2 * ((period : ℚ) - 1)) + (if change < 0 then |change| else 0)) / (period : ℚ)))
      (avgGain, avgLoss)
    if smoothed.2 = 0 then some 100
    else some (100 - (100 / (1 + smoothed.1 / smoothed.2)))

/-- Initial systemState (state.js). -/
def systemState : SystemState :=
  { MIN_HISTORY := 100
    BAD_TREND_THRESHOLD := 45 / 100
    TARGET_ACCURACY := 54 / 100
    EVOLUTION_RATE := 5 / 1000
    DEFENSIVE_MODE_ACTIVE := false }

/-- Initial mlFeatureWeights (state.js). -/
def mlFeatureWeights : MLWeights :=
  { rsi_strength := 15 / 10
    rsi_is_overbought := -2
    rsi_is_oversold := 2
    macd_hist := 25 / 10
    trend_strength_score := 3
    bollinger_pct_reversal := -25 / 10
    last_move := 5 / 10
    volatility_expansion := 12 / 10
    market_sentiment := 1
    stochastic_k := -18 / 10
    rsi_trend_strength := 1 }

/-- evolveSystemParameters (state.js). -/
def evolveSystemParameters (st : SystemState) (globalAccuracy : ℚ) : SystemState :=
  if globalAccuracy < st.TARGET_ACCURACY - 2 / 100 then
    { st with BAD_TREND_THRESHOLD := min (48 / 100) (st.BAD_TREND_THRESHOLD + st.EVOLUTION_RATE) }
  else if st.TARGET_ACCURACY + 2 / 100 < globalAccuracy then
    { st with BAD_TREND_THRESHOLD := max (42 / 100) (st.BAD_TREND_THRESHOLD - st.EVOLUTION_RATE) }
  else st

/-- The qualifying window of evolveMLWeights (state.js): the 50 most
recent records carrying both a feature snapshot and a (truthy) status. -/
def evolveQualifying (history : List HistRecord) : List HistRecord :=
  (history.filter (fun p => p.mlFeatures.isSome && p.status.isSome)).take 50

/-- Per-feature adjustment of one trade in evolveMLWeights: learningRate
if the prediction was correct and the feature aligned with it, minus the
learningRate if incorrect and aligned, 0 otherwise. -/
def featureAdjust (learningRate weight featureValue : ℚ)
    (wasCorrect wasBigPrediction : Bool) : ℚ :=
  let featureImpactIsBig := decide (0 < featureValue * weight)
  let wasFeatureAlignedWithPrediction :=
    if wasBigPrediction then featureImpactIsBig else !featureImpactIsBig
  if wasCorrect && wasFeatureAlignedWithPrediction then learningRate
  else if !wasCorrect && wasFeatureAlignedWithPrediction then -learningRate
  else 0

/-- evolveMLWeights (state.js): skip if fewer than 20 qualifying records,
otherwise sum per-feature adjustments over the qualifying records (only
the seven keys present in a feature snapshot are adjusted) and clamp every
weight into [0.1, 5.0]. -/
def evolveMLWeights (w : MLWeights) (history : List HistRecord) : MLWeights :=
  let learningRate : ℚ := 1 / 100
  let recentTrades := evolveQualifying history
  if recentTrades.length < 20 then w
  else
    let adjustments : MLWeights := recentTrades.foldl
      (fun adj trade =>
        match trade.mlFeatures with
        | none => adj
        | some fv =>
          let wasCorrect := trade.status == some "Win"
          let wasBigPrediction := trade.lastPredictedOutcome == some "BIG"
          { adj with
            rsi_strength := adj.rsi_strength +
              featureAdjust learningRate w.rsi_strength fv.rsi_strength
                wasCorrect wasBigPrediction
            rsi_is_overbought := adj.rsi_is_overbought +
              featureAdjust learningRate w.rsi_is_overbought fv.rsi_is_overbought
                wasCorrect wasBigPrediction
            rsi_is_oversold := adj.rsi_is_oversold +
              featureAdjust learningRate w.rsi_is_oversold fv.rsi_is_oversold
                wasCorrect wasBigPrediction
            macd_hist := adj.macd_hist +
              featureAdjust learningRate w.macd_hist fv.macd_hist
                wasCorrect wasBigPrediction
            trend_strength_score := adj.trend_strength_score +
              featureAdjust learningRate w.trend_strength_score fv.trend_strength_score
                wasCorrect wasBigPrediction
            bollinger_pct_reversal := adj.bollinger_pct_reversal +
              featureAdjust learningRate w.bollinger_pct_reversal fv.bollinger_pct_reversal
                wasCorrect wasBigPrediction
            last_move := adj.last_move +
              featureAdjust learningRate w.last_move fv.last_move
                wasCorrect wasBigPrediction })
      { rsi_strength := 0, rsi_is_overbought := 0, rsi_is_oversold := 0
        macd_hist := 0, trend_strength_score := 0, bollinger_pct_reversal := 0
        last_move := 0, volatility_expansion := 0, market_sentiment := 0
        stochastic_k := 0, rsi_trend_strength := 0 }
    { rsi_strength := max (1/10) (min 5 (w.rsi_strength + adjustments.rsi_strength))
      rsi_is_overbought := max (1/10) (min 5 (w.rsi_is_overbought + adjustments.rsi_is_overbought))
      rsi_is_oversold := max (1/10) (min 5 (w.rsi_is_oversold + adjustments.rsi_is_oversold))
      macd_hist := max (1/10) (min 5 (w.macd_hist + adjustments.macd_hist))
      trend_strength_score := max (1/10) (min 5 (w.trend_strength_score + adjustments.trend_strength_score))
      bollinger_pct_reversal := max (1/10) (min 5 (w.bollinger_pct_reversal + adjustments.bollinger_pct_reversal))
      last_move := max (1/10) (min 5 (w.last_move + adjustments.last_move))
      volatility_expansion := max (1/10) (min 5 (w.volatility_expansion + adjustments.volatility_expansion))
      market_sentiment := max (1/10) (min 5 (w.market_sentiment + adjustments.market_sentiment))
      stochastic_k := max (1/10) (min 5 (w.stochastic_k + adjustments.stochastic_k))
      rsi_trend_strength := max (1/10) (min 5 (w.rsi_trend_strength + adjustments.rsi_trend_strength)) }

/-- detectBadTrend (state.js). -/
def detectBadTrend (st : SystemState) (history : List HistRecord) : Bool :=
  if history.length < 30 then false
  else
    let recentHistory := history.take 30
    let wins := (recentHistory.filter (fun p => p.status == some "Win")).length
    let losses := (recentHistory.filter (fun p => p.status == some "Loss")).length
    if wins + losses < 15 then false
    else decide ((wins : ℚ) / ((wins : ℚ) + (losses : ℚ)) < st.BAD_TREND_THRESHOLD)

/-- manageDefensiveMode (state.js): activate on a detected bad trend;
deactivate when the statuses of the three most recent records are all
Win. -/
def manageDefensiveMode (st : SystemState) (history : List HistRecord) : SystemState :=
  let st1 := if detectBadTrend st history
    then { st with DEFENSIVE_MODE_ACTIVE := true } else st
  let last3 := (history.take 3).map (fun p => p.status)
  if st1.DEFENSIVE_MODE_ACTIVE && last3.length == 3
      && last3.all (fun s => s == some "Win")
  then { st1 with DEFENSIVE_MODE_ACTIVE := false }
  else st1

/-- updateMarketSentiment (market_sentiment.js): decay all event impacts
by 0.9, drop those with absolute impact at most 0.05, then with
probability 0.05 append a new event with impact plus or minus 1. -/
def updateMarketSentiment (marketEvents : List ℚ) (rnd : RandSrc) : List ℚ :=
  let decayed := (marketEvents.map (fun impact => impact * (9/10))).filter
    (fun impact => 1/20 < |impact|)
  if rnd.eventDraw < 1/20 then
    decayed ++ [if 1/2 < rnd.signDraw then 1 else -1]
  else decayed

/-- getMarketSentimentFactor (market_sentiment.js). -/
def getMarketSentimentFactor (marketEvents : List ℚ) : ℚ :=
  if marketEvents = [] then 0
  else max (-1) (min 1 marketEvents.sum)

/-- The numeric series a detector works on: actualNumber of each record,
NaN entries dropped (advisory_models.js, primary_model.js). -/
def histNumbers (history : List HistRecord) : List ℚ :=
  history.filterMap (fun p => p.actualNumber)

/-- JS truthiness of a nullable number: null/undefined and 0 are falsy. -/
def jsTruthyOpt (o : Option ℚ) : Bool :=
  match o with
  | some q => q != 0
  | none => false

/-- JS subtraction of two nullable numbers: null coerces to 0
(primary_model.js subtracts possibly-null EMA results directly). -/
def jsSubOpt (a b : Option ℚ) : ℚ :=
  a.getD 0 - b.getD 0

/-- analyzeRSITrend (advisory_models.js): 9-sample moving average of
RSI(14) over progressively shifted windows; vote BIG/SMALL when the
current RSI exceeds/undershoots that average by more than 2. -/
def analyzeRSITrend (history : List HistRecord) : Option AdvisorySignal :=
  let rsiPeriod : ℕ := 14
  let rsiMAPeriod : ℕ := 9
  let numbers := histNumbers history
  if numbers.length < rsiPeriod + rsiMAPeriod then none
  else
    let rsiOpts := (List.range rsiMAPeriod).map
      (fun j => calculateRSI (numbers.drop (rsiMAPeriod - 1 - j)) rsiPeriod)
    if rsiOpts.any (fun o => o.isNone) then none
    else
      let rsiValues := rsiOpts.filterMap id
      let currentRSI := rsiValues.getLastD 0
      let rsiMA := (calculateSMA rsiValues rsiMAPeriod).getD 0
      if rsiMA + 2 < currentRSI then some { prediction := "BIG", source := "RSITrend" }
      else if currentRSI < rsiMA - 2 then some { prediction := "SMALL", source := "RSITrend" }
      else none

/-- analyzeStochastic (advisory_models.js): %K of the most recent 14
samples; abstain when max equals min; SMALL above 85, BIG below 15. -/
def analyzeStochastic (history : List HistRecord) : Option AdvisorySignal :=
  let period : ℕ := 14
  let numbers := (histNumbers history).take period
  if numbers.length < period then none
  else
    let currentPrice := numbers.getD 0 0
    let lowestLow := numbers.foldl min (numbers.getD 0 0)
    let highestHigh := numbers.foldl max (numbers.getD 0 0)
    if highestHigh = lowestLow then none
    else
      let K := 100 * ((currentPrice - lowestLow) / (highestHigh - lowestLow))
      if 85 < K then some { prediction := "SMALL", source := "Stochastic" }
      else if K < 15 then some { prediction := "BIG", source := "Stochastic" }
      else none

/-- Array.prototype.join with separator '' as used in
analyzeColorPatterns: each outcome class contributes its characters,
null contributes the empty string. -/
def jsJoinClasses (outcomes : List (Option String)) : List Char :=
  (outcomes.map (fun o => match o with | some s => s.data | none => [])).flatten

/-- analyzeColorPatterns (advisory_models.js): the last 10 outcome
classes, chronological, joined into one string (Array.join turns the
full words BIG / SMALL into the sequence; a null class contributes the
empty string), then matched with String.endsWith against the pattern
table in source order. -/
def analyzeColorPatterns (history : List HistRecord) : Option AdvisorySignal :=
  let outcomes := ((history.map (fun p => getBigSmallFromNumber p.actual)).take 10).reverse
  if outcomes.length < 5 then none
  else
    let sequence : List Char := jsJoinClasses outcomes
    if ("BBBB".data).isSuffixOf sequence then some { prediction := "BIG", source := "Pattern:StreakCont" }
    else if ("SSSS".data).isSuffixOf sequence then some { prediction := "SMALL", source := "Pattern:StreakCont" }
    else if ("BBBBB".data).isSuffixOf sequence then some { prediction := "SMALL", source := "Pattern:StreakBreak" }
    else if ("SSSSS".data).isSuffixOf sequence then some { prediction := "BIG", source := "Pattern:StreakBreak" }
    else if ("BSBS".data).isSuffixOf sequence then some { prediction := "BIG", source := "Pattern:AltBreak" }
    else if ("SBSB".data).isSuffixOf sequence then some { prediction := "SMALL", source := "Pattern:AltBreak" }
    else if ("BBSBB".data).isSuffixOf sequence then some { prediction := "BIG", source := "Pattern:Interrupt" }
    else if ("SSBSS".data).isSuffixOf sequence then some { prediction := "SMALL", source := "Pattern:Interrupt" }
    else if ("BSB".data).isSuffixOf sequence then some { prediction := "SMALL", source := "Pattern:DoubleTop" }
    else if ("SBS".data).isSuffixOf sequence then some { prediction := "BIG", source := "Pattern:DoubleBottom" }
    else none

/-- analyzeVolatilityBreakout (advisory_models.js): compare the sample
std-dev of the most recent 20 values with the preceding 20; on a more
than 1.8-fold expansion vote in the direction of the latest step. -/
def analyzeVolatilityBreakout (sqrtFn : ℚ → ℚ) (history : List HistRecord) : Option AdvisorySignal :=
  let period : ℕ := 20
  let numbers := histNumbers history
  if numbers.length < period * 2 then none
  else
    let recentSlice := numbers.take period
    let priorSlice := (numbers.drop period).take period
    match calculateStdDev sqrtFn recentSlice period, calculateStdDev sqrtFn priorSlice period with
    | some recentVol, some priorVol =>
      if priorVol = 0 then none
      else if priorVol * (18/10) < recentVol then
        some { prediction := if numbers.getD 1 0 < numbers.getD 0 0 then "BIG" else "SMALL"
               source := "Volatility" }
      else none
    | _, _ => none

/-- analyzePriceAction (advisory_models.js): higher high and higher low
over the 4 most recent values vote BIG, lower high and lower low SMALL. -/
def analyzePriceAction (history : List HistRecord) : Option AdvisorySignal :=
  let numbers := (histNumbers history).take 5
  if numbers.length < 5 then none
  else
    let p0 := numbers.getD 0 0
    let p1 := numbers.getD 1 0
    let p2 := numbers.getD 2 0
    let p3 := numbers.getD 3 0
    if p2 < p0 ∧ p3 < p1 then some { prediction := "BIG", source := "PriceAction" }
    else if p0 < p2 ∧ p1 < p3 then some { prediction := "SMALL", source := "PriceAction" }
    else none

/-- analyzeMeanReversion (advisory_models.js): z-score of the latest
value against SMA20 and std-dev 20; SMALL above 1.5, BIG below -1.5.
(When the std-dev is 0 the rational division yields 0 and the detector
abstains; under the real square root the JS code abstains there too,
since a zero standard deviation forces the latest value to equal the
mean, making the z-score NaN.) -/
def analyzeMeanReversion (sqrtFn : ℚ → ℚ) (history : List HistRecord) : Option AdvisorySignal :=
  let period : ℕ := 20
  let numbers := (histNumbers history).take period
  if numbers.length < period then none
  else
    match calculateSMA numbers period, calculateStdDev sqrtFn numbers period with
    | some sma, some stdDev =>
      let currentPrice := numbers.getD 0 0
      let zScore := (currentPrice - sma) / stdDev
      if 3/2 < zScore then some { prediction := "SMALL", source := "MeanReversion" }
      else if zScore < -(3/2) then some { prediction := "BIG", source := "MeanReversion" }
      else none
    | _, _ => none

/-- runAdvisoryModels (advisory_models.js): run the six detectors, count
agreement with the primary prediction, consensus 0.5 when nobody voted. -/
def runAdvisoryModels (sqrtFn : ℚ → ℚ) (history : List HistRecord)
    (primaryPrediction : String) : AdvisoryResult :=
  let models : List (Option AdvisorySignal) :=
    [ analyzeRSITrend history
      , analyzeStochastic history
      , analyzeColorPatterns history
      , analyzeVolatilityBreakout sqrtFn history
      , analyzePriceAction history
      , analyzeMeanReversion sqrtFn history ]
  let advisorySignals := models.filterMap id
  let agreeingModels :=
    (advisorySignals.filter (fun m => m.prediction == primaryPrediction)).length
  let totalAdvisors := advisorySignals.length
  let consensusScore : ℚ :=
    if 0 < totalAdvisors then (agreeingModels : ℚ) / (totalAdvisors : ℚ) else 1/2
  { advisorySignals := advisorySignals, consensusScore := consensusScore
    agreeingModels := agreeingModels, totalAdvisors := totalAdvisors }

/-- getTrendContext (primary_model.js): compare EMA5, EMA10 and EMA20. -/
def getTrendContext (history : List HistRecord) (longMALookback : ℕ := 20) : TrendContext :=
  let numbers := histNumbers history
  if numbers.length < longMALookback then { strength := "UNKNOWN", direction := "NONE" }
  else
    match calculateEMA numbers 5, calculateEMA numbers 10, calculateEMA numbers longMALookback with
    | some shortMA, some mediumMA, some longMA =>
      if mediumMA < shortMA ∧ longMA < mediumMA then { strength := "STRONG", direction := "BIG" }
      else if shortMA < mediumMA ∧ mediumMA < longMA then { strength := "STRONG", direction := "SMALL" }
      else { strength := "RANGING", direction := "NONE" }
    | _, _, _ => { strength := "UNKNOWN", direction := "NONE" }

/-- createFeatureSetForML (primary_model.js).  Null when the history is
below the minimum-history gate.  JS truthiness quirks are reproduced:
a zero RSI, a zero MACD line, a zero SMA20 or a zero std-dev are falsy
and push the corresponding feature to its default.  The source filters
the MACD-signal candidate list for non-null entries, but every entry is
a number (null EMA results coerce to 0 during the subtraction), so the
filter keeps everything and is omitted here. -/
def createFeatureSetForML (sqrtFn : ℚ → ℚ) (st : SystemState)
    (history : List HistRecord) : Option FeatureVec :=
  let numbers := histNumbers history
  if numbers.length < st.MIN_HISTORY then none
  else
    let trendContext := getTrendContext history 20
    let rsiValue := calculateRSI numbers 14
    let macdLine : ℚ := jsSubOpt (calculateEMA numbers 12) (calculateEMA numbers 26)
    let signalCandidates := (List.range numbers.length).map
      (fun i => jsSubOpt (calculateEMA (numbers.drop i) 12) (calculateEMA (numbers.drop i) 26))
    let signalLine := calculateEMA signalCandidates 9
    let sma20 := calculateSMA numbers 20
    let stdDev20 := calculateStdDev sqrtFn numbers 20
    let bollingerPct : ℚ :=
      if jsTruthyOpt sma20 ∧ jsTruthyOpt stdDev20 then
        let upperBand := sma20.getD 0 + stdDev20.getD 0 * 2
        let lowerBand := sma20.getD 0 - stdDev20.getD 0 * 2
        if 0 < upperBand - lowerBand then
          (numbers.getD 0 0 - lowerBand) / (upperBand - lowerBand)
        else 0
      else 0
    some
      { rsi_strength := if jsTruthyOpt rsiValue then (rsiValue.getD 0 - 50) / 50 else 0
        rsi_is_overbought := if jsTruthyOpt rsiValue ∧ 70 < rsiValue.getD 0 then 1 else 0
        rsi_is_oversold := if jsTruthyOpt rsiValue ∧ rsiValue.getD 0 < 30 then -1 else 0
        macd_hist := if macdLine ≠ 0 ∧ jsTruthyOpt signalLine then macdLine - signalLine.getD 0 else 0
        trend_strength_score :=
          if trendContext.strength = "STRONG" then
            (if trendContext.direction = "BIG" then 1 else -1)
          else 0
        bollinger_pct_reversal :=
          if 1 < bollingerPct then bollingerPct - 1
          else if bollingerPct < 0 then bollingerPct else 0
        last_move := if numbers.getD 1 0 < numbers.getD 0 0 then 1 else -1 }

/-- One feature contribution to the (bigScore, smallScore) accumulators
of analyzeUnifiedMLModel: a positive weight sends positive values to the
BIG side, a non-positive weight reverses the roles. -/
def scoreFeature (weight featureValue : ℚ) (acc : ℚ × ℚ) : ℚ × ℚ :=
  if 0 < weight then
    if 0 < featureValue then (acc.1 + featureValue * weight, acc.2)
    else (acc.1, acc.2 + |featureValue * weight|)
  else
    if 0 < featureValue then (acc.1, acc.2 + featureValue * (abs weight))
    else (acc.1 + abs (featureValue * (abs weight)), acc.2)

/-- analyzeUnifiedMLModel (primary_model.js): score the seven features of
the feature object (all of whose keys carry weights) and derive class
and confidence; null when the features are null or the total score is 0. -/
def analyzeUnifiedMLModel (w : MLWeights) (features : Option FeatureVec) : Option PrimaryResult :=
  match features with
  | none => none
  | some fv =>
    let scores :=
      [ (w.rsi_strength, fv.rsi_strength)
        , (w.rsi_is_overbought, fv.rsi_is_overbought)
        , (w.rsi_is_oversold, fv.rsi_is_oversold)
        , (w.macd_hist, fv.macd_hist)
        , (w.trend_strength_score, fv.trend_strength_score)
        , (w.bollinger_pct_reversal, fv.bollinger_pct_reversal)
        , (w.last_move, fv.last_move) ].foldl
        (fun acc p => scoreFeature p.1 p.2 acc) (0, 0)
    let totalScore := scores.1 + scores.2
    if totalScore = 0 then none
    else
      some { prediction := if scores.2 < scores.1 then "BIG" else "SMALL"
             confidence := |scores.1 - scores.2| / totalScore
             source := "LearningML" }

/-- The confirmed-history filter of ultraAIPredict (main.js). -/
def confirmedOf (hist : List HistRecord) : List HistRecord :=
  hist.filter (fun p => p.actual.isSome && p.actualNumber.isSome)

/-- JS strict equality of two nullable strings as used in main.js
(the left side is a getBigSmallFromNumber result, whose null never
strictly equals the right side there). -/
def jsStrictEqStr : Option String → Option String → Bool
  | some x, some y => x == y
  | _, _ => false

/-- The lastResult computation of ultraAIPredict (main.js): present only
when lastActualOutcome is truthy (nonzero), Win when the class of the
last actual outcome strictly equals the last predicted outcome. -/
def lastResultOf (stats : SharedStats) : Option String :=
  match stats.lastActualOutcome with
  | none => none
  | some a =>
    if a ≠ 0 then
      some (if jsStrictEqStr (getBigSmallFromNumber (some a)) stats.lastPredictedOutcome
        then "Win" else "Loss")
    else none

/-- The state-management and evolution block of ultraAIPredict (main.js):
runs on every 5th confirmed record; parameter tuning only when a truthy
long-term accuracy is supplied. -/
def uapEvolution (gs : GlobalState) (confirmedHistory : List HistRecord)
    (stats : SharedStats) (rnd : RandSrc) : GlobalState :=
  if confirmedHistory.length % 5 = 0 then
    let sys1 := match stats.longTermGlobalAccuracy with
      | some a => if a ≠ 0 then evolveSystemParameters gs.sys a else gs.sys
      | none => gs.sys
    { sys := sys1
      weights := evolveMLWeights gs.weights confirmedHistory
      events := updateMarketSentiment gs.events rnd }
  else gs

/-- The global state after the evolution block and the (conditional)
defensive-mode evaluation of ultraAIPredict (main.js). -/
def uapStage2 (gs : GlobalState) (hist : List HistRecord)
    (stats : SharedStats) (rnd : RandSrc) : GlobalState :=
  let confirmedHistory := confirmedOf hist
  let gs1 := uapEvolution gs confirmedHistory stats rnd
  if (lastResultOf stats).isSome then
    { gs1 with sys := manageDefensiveMode gs1.sys confirmedHistory }
  else gs1

/-- Stage 1 of the prediction pipeline (main.js): features and primary
prediction, evaluated over the stage-2 state. -/
def uapPrimary (sqrtFn : ℚ → ℚ) (gs : GlobalState) (hist : List HistRecord)
    (stats : SharedStats) (rnd : RandSrc) : Option PrimaryResult :=
  let gs2 := uapStage2 gs hist stats rnd
  analyzeUnifiedMLModel gs2.weights (createFeatureSetForML sqrtFn gs2.sys (confirmedOf hist))

/-- The random 50/50 class fallback of main.js. -/
def randomFallbackClass (rnd : RandSrc) : String :=
  if 1/2 < rnd.fallbackDraw then "BIG" else "SMALL"

/-- ultraAIPredict (main.js), one full prediction cycle: returns the
decision object together with the global state and shared stats after
the call. -/
def ultraAIPredict (sqrtFn : ℚ → ℚ) (gs : GlobalState) (hist : List HistRecord)
    (stats : SharedStats) (rnd : RandSrc) : Decision × GlobalState × SharedStats :=
  let confirmedHistory := confirmedOf hist
  if confirmedHistory.length < gs.sys.MIN_HISTORY then
    ({ finalDecision := randomFallbackClass rnd
       finalConfidence := none
       confidenceLevel := 1
       overallLogic := none
       source := "ConsensusCore-v60.1"
       systemHealth := "INSUFFICIENT_HISTORY"
       advisorySignals := none }, gs, stats)
  else
    let gs2 := uapStage2 gs hist stats rnd
    match uapPrimary sqrtFn gs hist stats rnd with
    | none =>
      ({ finalDecision := randomFallbackClass rnd
         finalConfidence := none
         confidenceLevel := 0
         overallLogic := none
         source := "ConsensusCore-v60.1"
         systemHealth := "MODEL_UNCERTAIN"
         advisorySignals := none }, gs2, stats)
    | some primaryModel =>
      let adv := runAdvisoryModels sqrtFn confirmedHistory primaryModel.prediction
      let baseConfidence := primaryModel.confidence * (6/10 + adv.consensusScore * (4/10))
      let finalConfidence :=
        if gs2.sys.DEFENSIVE_MODE_ACTIVE then baseConfidence * (7/10) else baseConfidence
      let confidenceLevel0 : ℕ := if 11/20 < finalConfidence then 1 else 0
      let confidenceLevel : ℕ :=
        if gs2.sys.DEFENSIVE_MODE_ACTIVE then 0 else confidenceLevel0
      let output : Decision :=
        { finalDecision := primaryModel.prediction
          finalConfidence := some finalConfidence
          confidenceLevel := confidenceLevel
          overallLogic := some "ConsensusCore-v60.1"
          source := "ML+" ++ toString adv.agreeingModels ++ "/"
            ++ toString adv.totalAdvisors ++ "_Advisors"
          systemHealth := if gs2.sys.DEFENSIVE_MODE_ACTIVE then "DEFENSIVE_MODE" else "OK"
          advisorySignals := some adv.advisorySignals }
      let stats1 :=
        { stats with
          lastPredictedOutcome := some output.finalDecision
          mlFeatures := createFeatureSetForML sqrtFn gs2.sys confirmedHistory
          status := some ((lastResultOf stats).getD "Pending") }
      (output, gs2, stats1)

/-- The claimed weight-vector invariant: every entry of the weight
vector lies in the closed interval of 0.1 to 5.0. -/
def inRangeW (w : MLWeights) : Prop :=
  (1/10 ≤ w.rsi_strength ∧ w.rsi_strength ≤ 5) ∧
  (1/10 ≤ w.rsi_is_overbought ∧ w.rsi_is_overbought ≤ 5) ∧
  (1/10 ≤ w.rsi_is_oversold ∧ w.rsi_is_oversold ≤ 5) ∧
  (1/10 ≤ w.macd_hist ∧ w.macd_hist ≤ 5) ∧
  (1/10 ≤ w.trend_strength_score ∧ w.trend_strength_score ≤ 5) ∧
  (1/10 ≤ w.bollinger_pct_reversal ∧ w.bollinger_pct_reversal ≤ 5) ∧
  (1/10 ≤ w.last_move ∧ w.last_move ≤ 5) ∧
  (1/10 ≤ w.volatility_expansion ∧ w.volatility_expansion ≤ 5) ∧
  (1/10 ≤ w.market_sentiment ∧ w.market_sentiment ≤ 5) ∧
  (1/10 ≤ w.stochastic_k ∧ w.stochastic_k ≤ 5) ∧
  (1/10 ≤ w.rsi_trend_strength ∧ w.rsi_trend_strength ≤ 5)

instance (w : MLWeights) : Decidable (inRangeW w) := by
  unfold inRangeW
  infer_instance

/-- Modelled from the spec wording of the defensive-mode claim: the
resolved (Win / Loss / Cooldown-bearing) statuses of a history, newest
first.  Used only to compare the claimed deactivation condition with the
one the source actually checks. -/
def specResolvedStatuses (history : List HistRecord) : List String :=
  (history.filterMap (fun p => p.status)).filter
    (fun s => s == "Win" || s == "Loss" || s == "Cooldown")

/-- Modelled from the spec wording of the rsi_strength claim: the value
the spec assigns to rsi_strength, namely (RSI - 50)/50 when the RSI is
available and 0 exactly when it is unavailable. -/
def specRsiStrength (rsi : Option ℚ) : ℚ :=
  match rsi with
  | some r => (r - 50) / 50
  | none => 0

/-- The rsi_strength value the source actually computes (JS truthiness:
an available RSI of exactly 0 is falsy and also yields 0). -/
def codeRsiStrength (rsi : Option ℚ) : ℚ :=
  if jsTruthyOpt rsi then (rsi.getD 0 - 50) / 50 else 0

/-- A trivial interpretation of Math.sqrt used to instantiate witnesses
whose evaluation never reaches a square root. -/
def sqrt0 : ℚ → ℚ := fun _ => 0

/-- A confirmed history record with the given outcome number. -/
def recNum (q : ℚ) : HistRecord :=
  { actual := some q, actualNumber := some q }

/-- A confirmed record whose round resolved as a Win. -/
def recWin (q : ℚ) : HistRecord :=
  { actual := some q, actualNumber := some q, status := some "Win" }

/-- A confirmed record whose round is still pending. -/
def recPend (q : ℚ) : HistRecord :=
  { actual := some q, actualNumber := some q, status := some "Pending" }

/-- One hundred confirmed records, newest first 1..100, i.e. a strictly
decreasing chronological series (every delta is a loss, so RSI = 0). -/
def hist100dec : List HistRecord :=
  (List.range 100).map (fun i => recNum ((i : ℚ) + 1))

/-- Ten confirmed records whose outcome class is BIG. -/
def histTenHigh : List HistRecord :=
  (List.range 10).map (fun _ => recNum 9)

/-- The initial system state with defensive mode switched on. -/
def stActive : SystemState :=
  { systemState with DEFENSIVE_MODE_ACTIVE := true }

/-- The initial global state of the process. -/
def gs0 : GlobalState :=
  { sys := systemState, weights := mlFeatureWeights, events := [] }

/-- A system state with a small minimum-history gate, used to exercise
the consensus-stage theorems on a short concrete history. -/
def sysW : SystemState :=
  { systemState with MIN_HISTORY := 5 }

/-- Global state built on sysW. -/
def gsW : GlobalState :=
  { sys := sysW, weights := mlFeatureWeights, events := [] }

/-- Six confirmed records, newest first 6..1. -/
def histW : List HistRecord :=
  [recNum 6, recNum 5, recNum 4, recNum 3, recNum 2, recNum 1]

/-- An empty shared-stats payload (first cycle of the process). -/
def statsW : SharedStats := {}

/-- A concrete randomness source whose fallback draw exceeds 0.5. -/
def rndW : RandSrc :=
  { fallbackDraw := 3/4, eventDraw := 3/4, signDraw := 3/4 }

/-- A concrete randomness source whose fallback draw is below 0.5. -/
def rndB : RandSrc :=
  { fallbackDraw := 1/4, eventDraw := 3/4, signDraw := 3/4 }

/-- The primary result produced on histW under gsW. -/
def pmW : PrimaryResult :=
  { prediction := "BIG", confidence := 1, source := "LearningML" }

/-- An all-zero feature snapshot. -/
def fv0 : FeatureVec :=
  { rsi_strength := 0, rsi_is_overbought := 0, rsi_is_oversold := 0
    macd_hist := 0, trend_strength_score := 0, bollinger_pct_reversal := 0
    last_move := 0 }

/-- A qualifying record for weight evolution (feature snapshot and
status both present, round lost). -/
def recQual : HistRecord :=
  { actual := some 1, actualNumber := some 1, status := some "Loss"
    mlFeatures := some fv0 }

/-- Twenty qualifying records: enough to trigger a weight-evolution
pass. -/
def hist20 : List HistRecord :=
  (List.range 20).map (fun _ => recQual)

/-- The four-record history of the defensive-mode counterexample: the
newest record is still pending while the three rounds before it
resolved as wins. -/
def histPendWWW : List HistRecord :=
  [recPend 1, recWin 2, recWin 3, recWin 4]

/-- Clamping into [0.1, 5] lands in [0.1, 5]. -/
theorem clamp_mem (x : ℚ) :
    1/10 ≤ max (1/10) (min 5 x) ∧ max (1/10) (min 5 x) ≤ 5 :=
  ⟨le_max_left _ _, max_le (by norm_num) (min_le_left _ _)⟩

/-- The boolean deactivation test of manageDefensiveMode holds exactly
for the literal three-Win status list. -/
theorem len3_all_win_iff (l : List (Option String)) :
    (l.length == 3 && l.all (fun s => s == some "Win")) = true ↔
      l = [some "Win", some "Win", some "Win"] := by
  rcases l with _ | ⟨a, _ | ⟨b, _ | ⟨c, _ | ⟨d, t⟩⟩⟩⟩ <;>
    simp [List.all_cons, and_assoc]

/-- Claim C2 (amended): once defensive mode is active, a defensive-mode
evaluation deactivates it exactly when the statuses of the three most
recent records of the supplied history (resolved or not) are all Win;
in particular no shorter win streak deactivates it. -/
theorem claim_C2 (st : SystemState) (history : List HistRecord)
    (hact : st.DEFENSIVE_MODE_ACTIVE = true) :
    (manageDefensiveMode st history).DEFENSIVE_MODE_ACTIVE = false ↔
      (history.take 3).map (fun p => p.status) =
        [some "Win", some "Win", some "Win"] := by
  have key := len3_all_win_iff ((history.take 3).map (fun p => p.status))
  unfold manageDefensiveMode
  have hst1 : (if detectBadTrend st history
      then { st with DEFENSIVE_MODE_ACTIVE := true } else st).DEFENSIVE_MODE_ACTIVE = true := by
    split <;> simp [hact]
  dsimp only
  rw [hst1]
  by_cases hc : ((history.take 3).map (fun p => p.status)).length == 3
      && ((history.take 3).map (fun p => p.status)).all (fun s => s == some "Win")
  · rw [Bool.true_and, if_pos hc]
    simpa using key.mp hc
  · rw [Bool.true_and, if_neg (by simpa using hc), hst1]
    constructor
    · intro h
      cases h
    · intro h
      exact absurd (key.mpr h) (by simpa using hc)

/-- Claim C2 counterexample: a history whose three most recent RESOLVED
statuses are all Win (the newest record is still Pending) on which a
defensive-mode evaluation leaves defensive mode active, contrary to the
claim as stated. -/
theorem claim_C2_counterexample :
    (specResolvedStatuses histPendWWW).take 3 = ["Win", "Win", "Win"] ∧
    stActive.DEFENSIVE_MODE_ACTIVE = true ∧
    (manageDefensiveMode stActive histPendWWW).DEFENSIVE_MODE_ACTIVE = true := by
  decide

/-- Claim C2 witness: the amended equivalence, instantiated at the
active initial state and the empty history. -/
theorem claim_C2_witness :
    stActive.DEFENSIVE_MODE_ACTIVE = true ∧
    ((manageDefensiveMode stActive []).DEFENSIVE_MODE_ACTIVE = false ↔
      (([] : List HistRecord).take 3).map (fun p => p.status) =
        [some "Win", some "Win", some "Win"]) :=
  ⟨rfl, claim_C2 stActive [] rfl⟩

/-- getBigSmallFromNumber only ever returns null, SMALL or BIG. -/
theorem getBigSmall_cases (x : Option ℚ) :
    getBigSmallFromNumber x = none ∨ getBigSmallFromNumber x = some "SMALL" ∨
      getBigSmallFromNumber x = some "BIG" := by
  unfold getBigSmallFromNumber
  rcases x with _ | q
  · exact Or.inl rfl
  · dsimp only
    split_ifs <;> simp

/-- Appending two G-or-L-final character lists yields a G-or-L-final
list. -/
theorem getLast_append_cases (w rest : List Char)
    (hw : w.getLast? = none ∨ w.getLast? = some 'G' ∨ w.getLast? = some 'L')
    (hrest : rest.getLast? = none ∨ rest.getLast? = some 'G' ∨ rest.getLast? = some 'L') :
    (w ++ rest).getLast? = none ∨ (w ++ rest).getLast? = some 'G' ∨
      (w ++ rest).getLast? = some 'L' := by
  rcases hr : rest with _ | ⟨y, ys⟩
  · rw [List.append_nil]
    exact hw
  · rw [List.getLast?_append_of_ne_nil _ (by simp)]
    rw [hr] at hrest
    exact hrest

/-- A concatenation of outcome-class words ends in 'G' or 'L' when it is
nonempty: no joined sequence ever ends in a pattern letter. -/
theorem jsJoinClasses_getLast (outcomes : List (Option String))
    (h : ∀ o ∈ outcomes, o = none ∨ o = some "SMALL" ∨ o = some "BIG") :
    (jsJoinClasses outcomes).getLast? = none ∨
    (jsJoinClasses outcomes).getLast? = some 'G' ∨
    (jsJoinClasses outcomes).getLast? = some 'L' := by
  induction outcomes with
  | nil => exact Or.inl rfl
  | cons o os ih =>
    have ht := ih (fun x hx => h x (List.mem_cons_of_mem _ hx))
    have ho := h o (List.mem_cons_self _ _)
    rcases ho with h1 | h1 | h1 <;> subst h1
    · exact getLast_append_cases [] (jsJoinClasses os) (Or.inl rfl) ht
    · exact getLast_append_cases ("SMALL".data) (jsJoinClasses os)
        (Or.inr (Or.inr (by decide))) ht
    · exact getLast_append_cases ("BIG".data) (jsJoinClasses os)
        (Or.inr (Or.inl (by decide))) ht

/-- A nonempty suffix determines the last element of the list. -/
theorem suffix_getLast (pat l : List Char) (hp : pat ≠ [])
    (h : pat.isSuffixOf l = true) : l.getLast? = pat.getLast? := by
  have hs : pat <:+ l := by simpa [List.isSuffixOf] using h
  obtain ⟨t, ht⟩ := hs
  rw [← ht, List.getLast?_append_of_ne_nil _ hp]

/-- Claim C3 (amended): the Categorical Pattern detector joins the full
words BIG / SMALL (not single class letters) into the candidate
sequence, so none of the letter patterns of the rule table can ever be a
suffix of it: the detector abstains on every input.  In particular both
a four-HIGH and a five-HIGH chronological tail yield abstention rather
than a HIGH respectively LOW vote. -/
theorem claim_C3 (history : List HistRecord) :
    analyzeColorPatterns history = none := by
  unfold analyzeColorPatterns
  dsimp only
  set outcomes :=
    ((history.map (fun p => getBigSmallFromNumber p.actual)).take 10).reverse with houts
  by_cases hlen : outcomes.length < 5
  · rw [if_pos hlen]
  · rw [if_neg hlen]
    have hall : ∀ o ∈ outcomes, o = none ∨ o = some "SMALL" ∨ o = some "BIG" := by
      intro o ho
      rw [houts, List.mem_reverse] at ho
      have ho2 := List.take_subset 10 _ ho
      obtain ⟨p, _, hp⟩ := List.mem_map.mp ho2
      rw [← hp]
      exact getBigSmall_cases _
    have hlast := jsJoinClasses_getLast outcomes hall
    have hfalse : ∀ pat : List Char,
        pat.getLast? = some 'B' ∨ pat.getLast? = some 'S' →
        pat.isSuffixOf (jsJoinClasses outcomes) = false := by
      intro pat hpat
      by_contra hne
      have htrue : pat.isSuffixOf (jsJoinClasses outcomes) = true := by
        revert hne
        cases pat.isSuffixOf (jsJoinClasses outcomes) <;> simp
      have hpne : pat ≠ [] := by
        rcases hpat with h1 | h1 <;> intro hnil <;> subst hnil <;> simp at h1
      have heq := suffix_getLast pat _ hpne htrue
      rcases hpat with h1 | h1 <;> rw [h1] at heq <;>
        rcases hlast with h2 | h2 | h2 <;> rw [h2] at heq <;> simp at heq
    rw [hfalse ("BBBB".data) (Or.inl (by decide)),
      hfalse ("SSSS".data) (Or.inr (by decide)),
      hfalse ("BBBBB".data) (Or.inl (by decide)),
      hfalse ("SSSSS".data) (Or.inr (by decide)),
      hfalse ("BSBS".data) (Or.inr (by decide)),
      hfalse ("SBSB".data) (Or.inl (by decide)),
      hfalse ("BBSBB".data) (Or.inl (by decide)),
      hfalse ("SSBSS".data) (Or.inr (by decide)),
      hfalse ("BSB".data) (Or.inl (by decide)),
      hfalse ("SBS".data) (Or.inr (by decide))]
    rfl

/-- Claim C3 counterexample: ten straight BIG outcomes, whose
chronological tail is four (indeed ten) HIGHs; the claim says the
detector votes HIGH here, but it abstains. -/
theorem claim_C3_counterexample :
    (histTenHigh.map (fun p => getBigSmallFromNumber p.actual)) =
      List.replicate 10 (some "BIG") ∧
    analyzeColorPatterns histTenHigh = none := by
  decide

/-- Claim C4 counterexample: the initial weight vector itself violates
the claimed interval invariant (rsi_is_overbought starts at -2.0; so do
bollinger_pct_reversal at -2.5 and stochastic_k at -1.8). -/
theorem claim_C4_counterexample : ¬ inRangeW mlFeatureWeights := by
  with_unfolding_all decide

/-- Claim C4 (amended): the interval invariant is not an invariant of
the initial state, but it is preserved by the only operation that ever
mutates the weight vector: if every weight lies in [0.1, 5.0] before a
weight-evolution call, it still does afterwards (a skipped pass leaves
the weights untouched, a completed pass re-clamps every weight). -/
theorem claim_C4 (w : MLWeights) (history : List HistRecord)
    (hw : inRangeW w) : inRangeW (evolveMLWeights w history) := by
  unfold evolveMLWeights
  dsimp only
  split
  · exact hw
  · exact ⟨clamp_mem _, clamp_mem _, clamp_mem _, clamp_mem _, clamp_mem _,
      clamp_mem _, clamp_mem _, clamp_mem _, clamp_mem _, clamp_mem _, clamp_mem _⟩

/-- Claim C4 witness: preservation instantiated at a concrete in-range
weight vector and the empty history. -/
theorem claim_C4_witness :
    inRangeW (evolveMLWeights mlFeatureWeights hist20) ∧
    inRangeW (evolveMLWeights (evolveMLWeights mlFeatureWeights hist20) []) := by
  have h1 : inRangeW (evolveMLWeights mlFeatureWeights hist20) := by
    with_unfolding_all decide
  exact ⟨h1, claim_C4 _ [] h1⟩

/-- Claim C6: a weight-evolution pass is skipped (the weight vector is
returned unchanged) when fewer than 20 of the 50 most recent qualifying
records exist, and whenever a pass does run every resulting weight lies
in [0.1, 5.0]. -/
theorem claim_C6 (w : MLWeights) (history : List HistRecord) :
    ((evolveQualifying history).length < 20 → evolveMLWeights w history = w) ∧
    (20 ≤ (evolveQualifying history).length → inRangeW (evolveMLWeights w history)) := by
  constructor
  · intro h
    unfold evolveMLWeights
    dsimp only
    split
    · rfl
    · omega
  · intro h
    unfold evolveMLWeights
    dsimp only
    split
    · omega
    · exact ⟨clamp_mem _, clamp_mem _, clamp_mem _, clamp_mem _, clamp_mem _,
        clamp_mem _, clamp_mem _, clamp_mem _, clamp_mem _, clamp_mem _, clamp_mem _⟩

/-- Claim C6 witness: the skip half at the empty history and the clamp
half at twenty qualifying records. -/
theorem claim_C6_witness :
    ((evolveQualifying ([] : List HistRecord)).length < 20 ∧
      evolveMLWeights mlFeatureWeights [] = mlFeatureWeights) ∧
    (20 ≤ (evolveQualifying hist20).length ∧
      inRangeW (evolveMLWeights mlFeatureWeights hist20)) :=
  ⟨⟨by decide, (claim_C6 mlFeatureWeights []).1 (by decide)⟩,
   ⟨by decide, (claim_C6 mlFeatureWeights hist20).2 (by decide)⟩⟩

/-- Claim C7: parameter self-tuning.  Under the standing facts about the
parameter block (positive evolution step, threshold inside [0.42, 0.48]):
an accuracy observation more than 0.02 below target raises the bad-trend
threshold by the step clamped at 0.48; one more than 0.02 above target
lowers it by the step clamped at 0.42; an observation of target minus
0.03 strictly increases the threshold whenever it is below 0.48; and the
threshold always stays within [0.42, 0.48]. -/
theorem claim_C7 (st : SystemState) (acc : ℚ)
    (hrate : 0 < st.EVOLUTION_RATE)
    (hlo : 42/100 ≤ st.BAD_TREND_THRESHOLD)
    (hhi : st.BAD_TREND_THRESHOLD ≤ 48/100) :
    (acc < st.TARGET_ACCURACY - 2/100 →
      (evolveSystemParameters st acc).BAD_TREND_THRESHOLD =
        min (48/100) (st.BAD_TREND_THRESHOLD + st.EVOLUTION_RATE)) ∧
    (st.TARGET_ACCURACY + 2/100 < acc →
      (evolveSystemParameters st acc).BAD_TREND_THRESHOLD =
        max (42/100) (st.BAD_TREND_THRESHOLD - st.EVOLUTION_RATE)) ∧
    (st.BAD_TREND_THRESHOLD < 48/100 →
      st.BAD_TREND_THRESHOLD <
        (evolveSystemParameters st (st.TARGET_ACCURACY - 3/100)).BAD_TREND_THRESHOLD) ∧
    (42/100 ≤ (evolveSystemParameters st acc).BAD_TREND_THRESHOLD ∧
      (evolveSystemParameters st acc).BAD_TREND_THRESHOLD ≤ 48/100) := by
  refine ⟨?_, ?_, ?_, ?_⟩
  · intro h
    unfold evolveSystemParameters
    rw [if_pos h]
  · intro h
    unfold evolveSystemParameters
    rw [if_neg (by linarith), if_pos h]
  · intro h
    unfold evolveSystemParameters
    rw [if_pos (by linarith)]
    exact lt_min h (by linarith)
  · unfold evolveSystemParameters
    split_ifs
    · constructor
      · exact le_min (by norm_num) (by linarith)
      · exact min_le_left _ _
    · constructor
      · exact le_max_left _ _
      · exact max_le (by norm_num) (by linarith)
    · exact ⟨hlo, hhi⟩

/-- Claim C7 witness: the raise branch, the strict increase and the
range bound at the initial parameters and accuracy 0.51 = target - 0.03. -/
theorem claim_C7_witness :
    (0 < systemState.EVOLUTION_RATE ∧ 42/100 ≤ systemState.BAD_TREND_THRESHOLD ∧
      systemState.BAD_TREND_THRESHOLD ≤ 48/100) ∧
    ((51/100 : ℚ) < systemState.TARGET_ACCURACY - 2/100 ∧
      (evolveSystemParameters systemState (51/100)).BAD_TREND_THRESHOLD =
        min (48/100) (systemState.BAD_TREND_THRESHOLD + systemState.EVOLUTION_RATE)) ∧
    (systemState.BAD_TREND_THRESHOLD <
      (evolveSystemParameters systemState (systemState.TARGET_ACCURACY - 3/100)).BAD_TREND_THRESHOLD) ∧
    (42/100 ≤ (evolveSystemParameters systemState (51/100)).BAD_TREND_THRESHOLD ∧
      (evolveSystemParameters systemState (51/100)).BAD_TREND_THRESHOLD ≤ 48/100) :=
  ⟨⟨by norm_num [systemState], by norm_num [systemState], by norm_num [systemState]⟩,
   ⟨by norm_num [systemState],
    (claim_C7 systemState (51/100) (by norm_num [systemState]) (by norm_num [systemState])
      (by norm_num [systemState])).1 (by norm_num [systemState])⟩,
   (claim_C7 systemState (51/100) (by norm_num [systemState]) (by norm_num [systemState])
      (by norm_num [systemState])).2.2.1 (by norm_num [systemState]),
   (claim_C7 systemState (51/100) (by norm_num [systemState]) (by norm_num [systemState])
      (by norm_num [systemState])).2.2.2⟩

/-- Claim C9: every indicator and every advisory detector answers
insufficient data with the explicit no-result value none (and, being
total Lean functions over total rational arithmetic, they cannot raise):
each conjunct states that below its data threshold the function
abstains. -/
theorem claim_C9 :
    (∀ (data : List ℚ) (period : ℕ), data.length < period →
      calculateSMA data period = none) ∧
    (∀ (data : List ℚ) (period : ℕ), data.length < period →
      calculateEMA data period = none) ∧
    (∀ (sqrtFn : ℚ → ℚ) (data : List ℚ) (period : ℕ), data.length < period →
      calculateStdDev sqrtFn data period = none) ∧
    (∀ (data : List ℚ) (period : ℕ), data.length < period + 1 →
      calculateRSI data period = none) ∧
    (∀ history : List HistRecord, (histNumbers history).length < 23 →
      analyzeRSITrend history = none) ∧
    (∀ history : List HistRecord, (histNumbers history).length < 14 →
      analyzeStochastic history = none) ∧
    (∀ history : List HistRecord, history.length < 5 →
      analyzeColorPatterns history = none) ∧
    (∀ (sqrtFn : ℚ → ℚ) (history : List HistRecord), (histNumbers history).length < 40 →
      analyzeVolatilityBreakout sqrtFn history = none) ∧
    (∀ history : List HistRecord, (histNumbers history).length < 5 →
      analyzePriceAction history = none) ∧
    (∀ (sqrtFn : ℚ → ℚ) (history : List HistRecord), (histNumbers history).length < 20 →
      analyzeMeanReversion sqrtFn history = none) := by
  refine ⟨?_, ?_, ?_, ?_, ?_, ?_, ?_, ?_, ?_, ?_⟩
  · intro data period h
    unfold calculateSMA
    rw [if_pos (Or.inl h)]
  · intro data period h
    unfold calculateEMA
    rw [if_pos (Or.inl h)]
  · intro sqrtFn data period h
    unfold calculateStdDev stdDevVariance
    rw [if_pos (Or.inl h)]
    rfl
  · intro data period h
    unfold calculateRSI
    rw [if_pos h]
  · intro history h
    unfold analyzeRSITrend
    dsimp only
    rw [if_pos (by omega)]
  · intro history h
    unfold analyzeStochastic
    dsimp only
    rw [if_pos (by simp [List.length_take]; omega)]
  · intro history h
    unfold analyzeColorPatterns
    dsimp only
    rw [if_pos (by simp [List.length_take]; omega)]
  · intro sqrtFn history h
    unfold analyzeVolatilityBreakout
    dsimp only
    rw [if_pos (by omega)]
  · intro history h
    unfold analyzePriceAction
    dsimp only
    rw [if_pos (by simp [List.length_take]; omega)]
  · intro sqrtFn history h
    unfold analyzeMeanReversion
    dsimp only
    rw [if_pos (by simp [List.length_take]; omega)]

/-- Claim C9 witness: every conjunct instantiated at the empty input. -/
theorem claim_C9_witness :
    calculateSMA [] 20 = none ∧ calculateEMA [] 12 = none ∧
    calculateStdDev sqrt0 [] 20 = none ∧ calculateRSI [] 14 = none ∧
    analyzeRSITrend [] = none ∧ analyzeStochastic [] = none ∧
    analyzeColorPatterns [] = none ∧ analyzeVolatilityBreakout sqrt0 [] = none ∧
    analyzePriceAction [] = none ∧ analyzeMeanReversion sqrt0 [] = none :=
  ⟨claim_C9.1 [] 20 (by decide),
   claim_C9.2.1 [] 12 (by decide),
   claim_C9.2.2.1 sqrt0 [] 20 (by decide),
   claim_C9.2.2.2.1 [] 14 (by decide),
   claim_C9.2.2.2.2.1 [] (by decide),
   claim_C9.2.2.2.2.2.1 [] (by decide),
   claim_C9.2.2.2.2.2.2.1 [] (by decide),
   claim_C9.2.2.2.2.2.2.2.1 sqrt0 [] (by decide),
   claim_C9.2.2.2.2.2.2.2.2.1 [] (by decide),
   claim_C9.2.2.2.2.2.2.2.2.2 sqrt0 [] (by decide)⟩

/-- Shape of a successful cycle: when the gate is passed and the primary
model produced a result, ultraAIPredict emits exactly the consensus
decision object of Stage 3. -/
theorem ultraAIPredict_success (sqrtFn : ℚ → ℚ) (gs : GlobalState)
    (hist : List HistRecord) (stats : SharedStats) (rnd : RandSrc) (pm : PrimaryResult)
    (hlen : gs.sys.MIN_HISTORY ≤ (confirmedOf hist).length)
    (hpm : uapPrimary sqrtFn gs hist stats rnd = some pm) :
    (ultraAIPredict sqrtFn gs hist stats rnd).1 =
      (let gs2 := uapStage2 gs hist stats rnd
       let adv := runAdvisoryModels sqrtFn (confirmedOf hist) pm.prediction
       let fc0 := pm.confidence * (6/10 + adv.consensusScore * (4/10))
       let fc := if gs2.sys.DEFENSIVE_MODE_ACTIVE then fc0 * (7/10) else fc0
       { finalDecision := pm.prediction
         finalConfidence := some fc
         confidenceLevel :=
           if gs2.sys.DEFENSIVE_MODE_ACTIVE then 0 else if 11/20 < fc then 1 else 0
         overallLogic := some "ConsensusCore-v60.1"
         source := "ML+" ++ toString adv.agreeingModels ++ "/"
           ++ toString adv.totalAdvisors ++ "_Advisors"
         systemHealth := if gs2.sys.DEFENSIVE_MODE_ACTIVE then "DEFENSIVE_MODE" else "OK"
         advisorySignals := some adv.advisorySignals }) := by
  unfold ultraAIPredict
  dsimp only
  rw [if_neg (not_lt.mpr hlen), hpm]

/-- Claim C5: on a cycle that reaches the consensus stage, the final
confidence is the primary confidence times (0.6 + 0.4 times the
consensus score), times exactly 0.7 when defensive mode is active; the
confidence level is 1 exactly when the final confidence exceeds 0.55 and
is forced to 0 unconditionally under defensive mode. -/
theorem claim_C5 (sqrtFn : ℚ → ℚ) (gs : GlobalState) (hist : List HistRecord)
    (stats : SharedStats) (rnd : RandSrc) (pm : PrimaryResult)
    (hlen : gs.sys.MIN_HISTORY ≤ (confirmedOf hist).length)
    (hpm : uapPrimary sqrtFn gs hist stats rnd = some pm) :
    let gs2 := uapStage2 gs hist stats rnd
    let adv := runAdvisoryModels sqrtFn (confirmedOf hist) pm.prediction
    let fc0 := pm.confidence * (6/10 + adv.consensusScore * (4/10))
    let fc := if gs2.sys.DEFENSIVE_MODE_ACTIVE then fc0 * (7/10) else fc0
    (ultraAIPredict sqrtFn gs hist stats rnd).1.finalConfidence = some fc ∧
    (ultraAIPredict sqrtFn gs hist stats rnd).1.confidenceLevel =
      (if gs2.sys.DEFENSIVE_MODE_ACTIVE then 0 else if 11/20 < fc then 1 else 0) := by
  intro gs2 adv fc0 fc
  rw [ultraAIPredict_success sqrtFn gs hist stats rnd pm hlen hpm]
  exact ⟨rfl, rfl⟩

/-- Claim C5 witness: the consensus-stage equations instantiated at a
concrete six-record history that passes the gate (with the gate set to
5) and yields the primary result pmW. -/
theorem claim_C5_witness :
    gsW.sys.MIN_HISTORY ≤ (confirmedOf histW).length ∧
    uapPrimary sqrt0 gsW histW statsW rndW = some pmW ∧
    (let gs2 := uapStage2 gsW histW statsW rndW
     let adv := runAdvisoryModels sqrt0 (confirmedOf histW) pmW.prediction
     let fc0 := pmW.confidence * (6/10 + adv.consensusScore * (4/10))
     let fc := if gs2.sys.DEFENSIVE_MODE_ACTIVE then fc0 * (7/10) else fc0
     (ultraAIPredict sqrt0 gsW histW statsW rndW).1.finalConfidence = some fc ∧
     (ultraAIPredict sqrt0 gsW histW statsW rndW).1.confidenceLevel =
       (if gs2.sys.DEFENSIVE_MODE_ACTIVE then 0 else if 11/20 < fc then 1 else 0)) :=
  ⟨by decide, by with_unfolding_all decide,
   claim_C5 sqrt0 gsW histW statsW rndW pmW (by decide) (by with_unfolding_all decide)⟩

/-- Claim C10: on every cycle that reaches the consensus stage the
emitted class is exactly the primary model class, whatever the advisory
votes, the consensus score, defensive mode or the sentiment state are:
only confidence and confidence level depend on them. -/
theorem claim_C10 (sqrtFn : ℚ → ℚ) (gs : GlobalState) (hist : List HistRecord)
    (stats : SharedStats) (rnd : RandSrc) (pm : PrimaryResult)
    (hlen : gs.sys.MIN_HISTORY ≤ (confirmedOf hist).length)
    (hpm : uapPrimary sqrtFn gs hist stats rnd = some pm) :
    (ultraAIPredict sqrtFn gs hist stats rnd).1.finalDecision = pm.prediction := by
  rw [ultraAIPredict_success sqrtFn gs hist stats rnd pm hlen hpm]

/-- Claim C10 witness: the class equation at the same concrete
consensus-stage input. -/
theorem claim_C10_witness :
    gsW.sys.MIN_HISTORY ≤ (confirmedOf histW).length ∧
    uapPrimary sqrt0 gsW histW statsW rndW = some pmW ∧
    (ultraAIPredict sqrt0 gsW histW statsW rndW).1.finalDecision = pmW.prediction :=
  ⟨by decide, by with_unfolding_all decide,
   claim_C10 sqrt0 gsW histW statsW rndW pmW (by decide) (by with_unfolding_all decide)⟩

/-- Claim C1: evaluation of the insufficient-history branch at the empty
history.  The orchestrator does return a randomness-chosen class in
BIG / SMALL, health INSUFFICIENT_HISTORY, and performs no further
pipeline step (global state and shared stats are untouched); but it
returns confidenceLevel = 1 - not 0 as the spec demands - and omits the
confidence value entirely instead of reporting confidence 0. -/
theorem claim_C1_insufficient_history :
    (confirmedOf ([] : List HistRecord)).length < gs0.sys.MIN_HISTORY ∧
    (ultraAIPredict sqrt0 gs0 [] statsW rndW).1 =
      { finalDecision := "BIG"
        finalConfidence := none
        confidenceLevel := 1
        overallLogic := none
        source := "ConsensusCore-v60.1"
        systemHealth := "INSUFFICIENT_HISTORY"
        advisorySignals := none } ∧
    (ultraAIPredict sqrt0 gs0 [] statsW rndB).1.finalDecision = "SMALL" ∧
    (ultraAIPredict sqrt0 gs0 [] statsW rndW).2 = (gs0, statsW) := by
  with_unfolding_all decide

/-- Claim C8 (amended): on every window the extractor accepts,
rsi_strength equals (RSI(14) - 50)/50 when RSI(14) is available AND
nonzero, and equals 0 when RSI(14) is unavailable OR exactly 0 (JS
truthiness treats an available RSI of 0 as falsy). -/
theorem claim_C8 (sqrtFn : ℚ → ℚ) (st : SystemState) (history : List HistRecord)
    (h : st.MIN_HISTORY ≤ (histNumbers history).length) :
    (createFeatureSetForML sqrtFn st history).map (fun f => f.rsi_strength) =
      some (match calculateRSI (histNumbers history) 14 with
        | some r => if r ≠ 0 then (r - 50) / 50 else 0
        | none => 0) := by
  unfold createFeatureSetForML
  dsimp only
  rw [if_neg (not_lt.mpr h)]
  rw [Option.map_some']
  cases hr : calculateRSI (histNumbers history) 14 with
  | none => simp [jsTruthyOpt, hr]
  | some r =>
    by_cases hz : r = 0
    · subst hz
      simp [jsTruthyOpt, hr]
    · simp [jsTruthyOpt, hr, hz]

/-- Claim C8 counterexample: a 100-record history whose chronological
series is strictly decreasing, so RSI(14) is available and equals 0; the
claim demands rsi_strength = (0 - 50)/50 = -1, but the extractor
produces 0 because a zero RSI is falsy in JS. -/
theorem claim_C8_counterexample :
    calculateRSI (histNumbers hist100dec) 14 = some 0 ∧
    (createFeatureSetForML sqrt0 systemState hist100dec).map (fun f => f.rsi_strength) =
      some 0 ∧
    ((0 : ℚ) - 50) / 50 ≠ 0 := by
  with_unfolding_all decide

/-- Claim C8 witness: the amended formula instantiated at the same
100-record window. -/
theorem claim_C8_witness :
    systemState.MIN_HISTORY ≤ (histNumbers hist100dec).length ∧
    (createFeatureSetForML sqrt0 systemState hist100dec).map (fun f => f.rsi_strength) =
      some (match calculateRSI (histNumbers hist100dec) 14 with
        | some r => if r ≠ 0 then (r - 50) / 50 else 0
        | none => 0) :=
  ⟨by decide, claim_C8 sqrt0 systemState hist100dec (by decide)⟩
